import Mathlib

/-!
Shallow embedding of the two diagnostic scripts of the repository:

* `check_ollama_config.py` — the server/model health checker
  (`check_ollama_status`, `check_model_available`, `test_model_inference`,
  `print_model_info`, `main`, embedded here as `health_main`).
* `test_embedder.py` — the embedder tester
  (`_load_embedder_cfg`, `_headers`, `test_connection`, `test_embedding`,
  `test_context_window`, `main`, embedded here as `embedder_main`).

The network is modelled by an environment that supplies the outcome of each
HTTP request (a response with status code and optionally-parsable JSON body,
a connection error, a timeout, or some other exception).  Each check function
is translated from the Python source as a pure function of that outcome.
A check whose Python original can fall off the end of its `try` block or let
an exception escape returns `Option Bool` (`none` models the Python value
`None`, respectively an uncaught exception, as stated at each definition).
Console output is modelled as structured log data where a claim needs it;
the value-rounding of the reported embedding values (`round(v, 6)`) is a
display concern and is not modelled.  The thousands-separator report of the
context length, however, is control flow: the format spec raises for
non-numeric values, so that path is modelled as a crash.  An uncaught
exception makes CPython terminate with exit status 1, which is how the
`main` embeddings assign exit codes to crash branches.
-/

/-- JSON values as produced by `response.json()`.  Numbers are modelled by
rationals (the scripts never compute with them, they only test types and
print). -/
inductive JsonVal where
  | jnull
  | jbool (b : Bool)
  | jnum (q : ℚ)
  | jstr (s : String)
  | jarr (items : List JsonVal)
  | jobj (fields : List (String × JsonVal))

/-- `d.get(k)` on a parsed JSON object: the value of the first field named
`k`, if any (parsed JSON objects have no duplicate keys). -/
def jget (kvs : List (String × JsonVal)) (k : String) : Option JsonVal :=
  (kvs.find? (fun p => p.1 == k)).map (fun p => p.2)

/-- Python truthiness of a JSON value (`if not x`). -/
def pyTruthy : JsonVal → Bool
  | .jnull => false
  | .jbool b => b
  | .jnum q => if q = 0 then false else true
  | .jstr s => !s.isEmpty
  | .jarr items => !items.isEmpty
  | .jobj fields => !fields.isEmpty

/-- `isinstance(v, (int, float))`.  Python `bool` is a subclass of `int`,
so JSON booleans also count as numeric. -/
def isNumLike : JsonVal → Bool
  | .jnum _ => true
  | .jbool _ => true
  | _ => false

/-- Python substring test `needle in hay` on character lists. -/
def containsSub (needle : List Char) : List Char → Bool
  | [] => needle.isEmpty
  | c :: rest => needle.isPrefixOf (c :: rest) || containsSub needle rest

/-- Python substring test `needle in hay` on strings. -/
def pyInStr (needle hay : String) : Bool :=
  containsSub needle.toList hay.toList

/-- Outcome of one blocking HTTP request, as seen by the calling script:
a response (with status code and body, `none` when the body does not parse
as JSON), a connection error, a timeout, or any other raised exception. -/
inductive NetResult where
  | ok (status : Nat) (body : Option JsonVal)
  | connError
  | timeout
  | otherExc

/- ────────────────────────────────────────────────────────────────────────
   check_ollama_config.py
   ──────────────────────────────────────────────────────────────────────── -/

/-- `MODEL_NAME` constant of `check_ollama_config.py`. -/
def MODEL_NAME : String := "qwen3:4b"

/-- `check_ollama_status`: GET `/api/tags`; `True` on HTTP 200, `False` on
any other status, on `ConnectionError` and on `Timeout`.  Any other
exception is not caught and propagates (`none`). -/
def check_ollama_status : NetResult → Option Bool
  | .ok status _ => some (status == 200)
  | .connError => some false
  | .timeout => some false
  | .otherExc => none

/-- `model.get("name", "")` for one descriptor in the `models` list;
raises (`.error`) when the descriptor is not a dict. -/
def getNameE : JsonVal → Except Unit JsonVal
  | .jobj kvs => .ok ((jget kvs "name").getD (.jstr ""))
  | _ => .error ()

/-- The list comprehension `[model.get("name", "") for model in models]`,
propagating a raised exception. -/
def getNamesE : List JsonVal → Except Unit (List JsonVal)
  | [] => .ok []
  | m :: ms =>
    match getNameE m with
    | .error e => .error e
    | .ok n =>
      match getNamesE ms with
      | .error e => .error e
      | .ok ns => .ok (n :: ns)

/-- `MODEL_NAME in name` for one extracted name value: substring test on a
string, element membership on a list, key membership on a dict,
`TypeError` (`.error`) otherwise. -/
def pyInE (needle : String) : JsonVal → Except Unit Bool
  | .jstr s => .ok (pyInStr needle s)
  | .jarr items => .ok (items.any (fun v => match v with
      | .jstr t => t == needle
      | _ => false))
  | .jobj kvs => .ok (kvs.any (fun p => p.1 == needle))
  | _ => .error ()

/-- `any(MODEL_NAME in name for name in model_names)`, short-circuiting and
propagating a raised exception. -/
def anyContainsE (needle : String) : List JsonVal → Except Unit Bool
  | [] => .ok false
  | n :: ns =>
    match pyInE needle n with
    | .error e => .error e
    | .ok true => .ok true
    | .ok false => anyContainsE needle ns

/-- `', '.join(model_names)` raises unless every element is a string. -/
def asStringsE : List JsonVal → Except Unit (List String)
  | [] => .ok []
  | .jstr s :: ns =>
    match asStringsE ns with
    | .error e => .error e
    | .ok ss => .ok (s :: ss)
  | _ :: _ => .error ()

/-- The name the Python comprehension extracts from one model descriptor,
as a total function: the `name` field when it is a string, `""` when it is
absent (the `.get` default) and on the shapes where the Python code would
raise instead. -/
def itemName : JsonVal → String
  | .jobj kvs =>
    match jget kvs "name" with
    | some (.jstr s) => s
    | _ => ""
  | _ => ""

/-- A well-formed model descriptor of a tag-listing response: a JSON object
whose `name` field, if present, is a string. -/
def wfTagItem : JsonVal → Bool
  | .jobj kvs =>
    match jget kvs "name" with
    | some (.jstr _) => true
    | none => true
    | some _ => false
  | _ => false

/-- Error line of `check_model_available`'s `except Exception` handler
(the exception detail is elided). -/
def availErrLine : List String :=
  ["❌ Error checking model availability:"]

/-- Failure lines of `check_model_available` when the model is absent. -/
def notAvailLines (names : List String) : List String :=
  ["❌ Model '" ++ MODEL_NAME ++ "' is NOT available.",
   "   Available models: " ++
     (if names.isEmpty then "None" else String.intercalate ", " names),
   "   Run: ollama pull " ++ MODEL_NAME]

/-- Body of `check_model_available` once `models` has been extracted from
the parsed response.  Returns the Python return value and the printed
lines. -/
def evalModels (models : JsonVal) : Option Bool × List String :=
  match models with
  | .jarr ms =>
    match getNamesE ms with
    | .error _ => (some false, availErrLine)
    | .ok names =>
      match anyContainsE MODEL_NAME names with
      | .error _ => (some false, availErrLine)
      | .ok true =>
        (some true, ["✅ Model '" ++ MODEL_NAME ++ "' is available."])
      | .ok false =>
        match asStringsE names with
        | .error _ => (some false, availErrLine)
        | .ok strs => (some false, notAvailLines strs)
  | _ => (some false, availErrLine)

/-- `check_model_available`: GET `/api/tags`; on HTTP 200 parse the body and
search the model names for `MODEL_NAME` as a substring.  On a non-200 status
the function body falls off the end of its `try` block: it prints nothing
and returns Python `None` (modelled as `(none, [])`).  Every exception is
caught by `except Exception` and turned into `False`.  The pair is the
Python return value together with the printed lines. -/
def check_model_available : NetResult → Option Bool × List String
  | .ok status body =>
    if status == 200 then
      match body with
      | some (.jobj kvs) => evalModels ((jget kvs "models").getD (.jarr []))
      | _ => (some false, availErrLine)
    else
      (none, [])
  | .connError => (some false, availErrLine)
  | .timeout => (some false, availErrLine)
  | .otherExc => (some false, availErrLine)

/-- `test_model_inference`: POST `/api/generate`; `True` iff the status is
200, the body parses as a JSON object and `result.get("response", "")` is a
string (a non-string value makes `.strip()` raise, which the
`except Exception` handler turns into `False`, as it does every other
exception). -/
def test_model_inference : NetResult → Bool
  | .ok status body =>
    if status == 200 then
      match body with
      | some (.jobj kvs) =>
        match (jget kvs "response").getD (.jstr "") with
        | .jstr _ => true
        | _ => false
      | _ => false
    else
      false
  | _ => false

/-- `print_model_info`: POST `/api/show`; purely informational.  Returns
`true` when a warning line was emitted instead of the info block (non-200
status, unparsable body, non-dict payload or non-dict `details`, or any
exception — all caught by `except Exception`). -/
def print_model_info : NetResult → Bool
  | .ok status body =>
    if status == 200 then
      match body with
      | some (.jobj kvs) =>
        match (jget kvs "details").getD (.jobj []) with
        | .jobj _ => false
        | _ => true
      | _ => true
    else
      true
  | _ => true

/-- Network environment of one run of `check_ollama_config.py`: the outcomes
of the (up to) four HTTP requests, in program order. -/
structure HealthEnv where
  tags1 : NetResult
  tags2 : NetResult
  showResp : NetResult
  genResp : NetResult

/-- Observable result of one run of the health checker: process exit status,
number of HTTP requests issued, whether the final success line
(`All checks passed!`) was printed, and whether the metadata fetch emitted a
warning. -/
structure HealthRun where
  exitCode : Nat
  calls : Nat
  verdict : Bool
  metaWarn : Bool
  deriving DecidableEq

/-- `main` of `check_ollama_config.py`.  It never calls `sys.exit`: every
non-crashing run returns normally, so CPython exits with status 0 whether or
not the checks passed.  The only crash path is an exception escaping
`check_ollama_status` (that function is the only one that does not catch
`Exception`), which makes CPython exit with status 1. -/
def health_main (env : HealthEnv) : HealthRun :=
  match check_ollama_status env.tags1 with
  | none => ⟨1, 1, false, false⟩
  | some false => ⟨0, 1, false, false⟩
  | some true =>
    match (check_model_available env.tags2).1 with
    | some true =>
      let warn := print_model_info env.showResp
      let inf := test_model_inference env.genResp
      ⟨0, 4, inf, warn⟩
    | _ => ⟨0, 2, false, false⟩

/- ────────────────────────────────────────────────────────────────────────
   test_embedder.py
   ──────────────────────────────────────────────────────────────────────── -/

/-- `TEST_SENTENCE` constant of `test_embedder.py`. -/
def TEST_SENTENCE : String := "Embed this sentence."

/-- One entry of `llm_models_json.json`: a JSON object with the fields the
script reads (`cfg.get(...)` yields `none` for an absent field). -/
structure ModelCfg where
  kind : Option String := none
  model : Option String := none
  provider : Option String := none
  base_url : String := ""
  api_key : Option String := none
  deriving DecidableEq

/-- State of the configuration file `llm_models_json.json` when the script
opens it: absent, present but not valid JSON, or parsed into its entries in
file order. -/
inductive ConfigFile where
  | missing
  | unparsable
  | parsed (entries : List (String × ModelCfg))
  deriving DecidableEq

/-- `_load_embedder_cfg`: return the first entry whose `kind` field equals
`"embedder"`, or exit with status 1 (`.error` carries the diagnostic line;
the exception detail of the parse error is elided). -/
def load_embedder_cfg : ConfigFile → Except String (String × ModelCfg)
  | .missing =>
    .error "[ERROR] 'llm_models_json.json' not found. Run from the project root."
  | .unparsable =>
    .error "[ERROR] Failed to parse 'llm_models_json.json':"
  | .parsed entries =>
    match entries.find? (fun p => p.2.kind == some "embedder") with
    | some p => .ok p
    | none =>
      .error "[ERROR] No model with kind='embedder' found in llm_models_json.json."

/-- The placeholder sentinels of `_headers`'s allow-list. -/
def placeholder_keys : List String := ["", "none", "ollama", "no_key_required"]

/-- `_headers`: content-type header plus an `Authorization: Bearer` header
exactly when `api_key` is truthy (non-empty) and its lowercase form is not
on the placeholder allow-list. -/
def headersOf (cfg : ModelCfg) : List (String × String) :=
  let api_key := cfg.api_key.getD ""
  if api_key != "" && !(placeholder_keys.contains api_key.toLower) then
    [("Content-Type", "application/json"), ("Authorization", "Bearer " ++ api_key)]
  else
    [("Content-Type", "application/json")]

/-- `cfg.get("model") or alias`: the alias stands in when the `model` field
is absent or falsy (empty). -/
def modelNameOf (aliasName : String) (cfg : ModelCfg) : String :=
  match cfg.model with
  | some s => if s.isEmpty then aliasName else s
  | none => aliasName

/-- `test_connection`: any HTTP response at all is a pass; `ConnectError`,
`TimeoutException` and every other exception are caught and are a failure. -/
def test_connection : NetResult → Bool
  | .ok _ _ => true
  | .connError => false
  | .timeout => false
  | .otherExc => false

/-- Console outcome of `test_embedding`, as structured data (the `round(v, 6)`
display formatting of the reported values is not modelled). -/
inductive EmbedLog where
  | httpError (status : Nat)
  | requestFailed
  | parseFailed
  | badShape
  | noEmbedding
  | notNumeric
  | success (dim : Nat) (firstFive : List JsonVal)
  | crashed

/-- The response-shape validation section of `test_embedding` (everything
after `resp.json()` succeeded with a JSON object): `data` must be a
non-empty list; `data[0]` must be a dict (else `.get` raises, uncaught:
`none`); its `embedding` must be a non-empty list whose first five values
are numeric.  On success the log reports the vector length and the first
five values. -/
def validate_embedding (kvs : List (String × JsonVal)) : Option Bool × EmbedLog :=
  match jget kvs "data" with
  | some (.jarr (item0 :: _)) =>
    match item0 with
    | .jobj ikvs =>
      match jget ikvs "embedding" with
      | some (.jarr (e :: es)) =>
        if ((e :: es).take 5).all isNumLike then
          (some true, .success (e :: es).length ((e :: es).take 5))
        else
          (some false, .notNumeric)
      | _ => (some false, .noEmbedding)
    | _ => (none, .crashed)
  | _ => (some false, .badShape)

/-- `test_embedding`: POST `/v1/embeddings`.  `raise_for_status` raises
`HTTPStatusError` on every non-2xx status (caught: failure); `ConnectError`
and `TimeoutException` are caught (failure); any other exception from the
request propagates (`none`).  On a 2xx response: an unparsable body fails;
a payload that is not a JSON object crashes at `payload.get` (`none`, the
shape-validation code is outside any `try`); otherwise the shape is
validated by `validate_embedding`. -/
def test_embedding : NetResult → Option Bool × EmbedLog
  | .ok status body =>
    if 200 ≤ status && status < 300 then
      match body with
      | none => (some false, .parseFailed)
      | some (.jobj kvs) => validate_embedding kvs
      | some _ => (none, .crashed)
    else
      (some false, .httpError status)
  | .connError => (some false, .requestFailed)
  | .timeout => (some false, .requestFailed)
  | .otherExc => (none, .crashed)

/-- Console outcome of `test_context_window`, as structured data.
`ctxFound` carries the reported key and value; the report is only reached
for numeric values, since the thousands-separator format spec raises on
every other type. -/
inductive CtxLog where
  | httpError (status : Nat)
  | requestFailed
  | parseFailed
  | noModelinfo
  | noCtxKey (keys : List String)
  | ctxFound (key : String) (value : JsonVal)
  | crashed

/-- Python `s.endswith(suffix)`, on the underlying character lists. -/
def pyEndsWith (s suffix : String) : Bool :=
  suffix.toList.isSuffixOf s.toList

/-- The key search of `test_context_window`: the first `modelinfo` key
ending in `.context_length`. -/
def findCtxKey (mkvs : List (String × JsonVal)) : Option (String × JsonVal) :=
  mkvs.find? (fun p => pyEndsWith p.1 ".context_length")

/-- The `modelinfo` section of `test_context_window` (everything after
`resp.json()` succeeded with a JSON object): `payload.get("modelinfo", {})`
is taken; a falsy value fails with `noModelinfo`; a truthy JSON object is
searched for a key ending in `.context_length` — absence fails listing the
keys, and the first match is reported with its value.  The report formats
the value with a thousands separator, a format spec that is only valid for
numbers (Python `bool` included): for a string value it raises
`ValueError`, for null/list/object values `TypeError`, all uncaught, so a
found key with a non-numeric value crashes the process instead of passing.
A truthy non-object `modelinfo` likewise eventually raises an uncaught
exception (iteration, `.keys()` or indexing), modelled as a crash. -/
def search_modelinfo (kvs : List (String × JsonVal)) : Option Bool × CtxLog :=
  let mi := (jget kvs "modelinfo").getD (.jobj [])
  if pyTruthy mi then
    match mi with
    | .jobj mkvs =>
      match findCtxKey mkvs with
      | some p =>
        if isNumLike p.2 then
          (some true, .ctxFound p.1 p.2)
        else
          (none, .crashed)
      | none => (some false, .noCtxKey (mkvs.map (fun p => p.1)))
    | _ => (none, .crashed)
  else
    (some false, .noModelinfo)

/-- `test_context_window`: POST `/api/show`.  Error handling of the request
and body parse is as in `test_embedding`; on a parsed JSON-object payload
the metadata is searched by `search_modelinfo`. -/
def test_context_window : NetResult → Option Bool × CtxLog
  | .ok status body =>
    if 200 ≤ status && status < 300 then
      match body with
      | none => (some false, .parseFailed)
      | some (.jobj kvs) => search_modelinfo kvs
      | some _ => (none, .crashed)
    else
      (some false, .httpError status)
  | .connError => (some false, .requestFailed)
  | .timeout => (some false, .requestFailed)
  | .otherExc => (none, .crashed)

/-- Environment of one run of `test_embedder.py`: the configuration file and
the outcomes of the (up to) three HTTP requests, in program order. -/
structure EmbedEnv where
  config : ConfigFile
  connResp : NetResult
  embedResp : NetResult
  showResp : NetResult

/-- Observable result of one run of the embedder tester: process exit
status, number of HTTP requests issued, and the three check results when the
run completed without crashing. -/
structure EmbedRun where
  exitCode : Nat
  calls : Nat
  results : Option (Bool × Bool × Bool)
  deriving DecidableEq

/-- `main` of `test_embedder.py`: load the configuration (exit 1 on
failure, before any network call), run the three checks, count the passes,
and `sys.exit(1)` when fewer than all three passed (a normal return exits
with status 0).  A crash inside `test_embedding` or `test_context_window`
makes CPython exit with status 1. -/
def embedder_main (env : EmbedEnv) : EmbedRun :=
  match load_embedder_cfg env.config with
  | .error _ => ⟨1, 0, none⟩
  | .ok _ =>
    let r1 := test_connection env.connResp
    match (test_embedding env.embedResp).1 with
    | none => ⟨1, 2, none⟩
    | some r2 =>
      match (test_context_window env.showResp).1 with
      | none => ⟨1, 3, none⟩
      | some r3 =>
        let passed := (if r1 then 1 else 0) + (if r2 then 1 else 0) +
          (if r3 then 1 else 0)
        ⟨if passed < 3 then 1 else 0, 3, some (r1, r2, r3)⟩

/- ────────────────────────────────────────────────────────────────────────
   Predicates and concrete inputs used by the claims
   ──────────────────────────────────────────────────────────────────────── -/

/-- The fatal-configuration condition of claim C4: the configuration file is
missing, unparsable, or has no entry whose `kind` equals `"embedder"`. -/
def noEmbedderEntry : ConfigFile → Bool
  | .missing => true
  | .unparsable => true
  | .parsed entries => entries.all (fun p => p.2.kind != some "embedder")

/-- The embedding-check acceptance condition as claim C3 words it (modelled
from the spec, for comparison with the code): the response holds a
non-empty `data` list whose items EACH hold a non-empty `embedding` vector
all of whose values are numeric. -/
def claimedEmbedOk (body : JsonVal) : Bool :=
  match body with
  | .jobj kvs =>
    match jget kvs "data" with
    | some (.jarr items) =>
      !items.isEmpty && items.all (fun item =>
        match item with
        | .jobj ikvs =>
          match jget ikvs "embedding" with
          | some (.jarr es) => !es.isEmpty && es.all isNumLike
          | _ => false
        | _ => false)
    | _ => false
  | _ => false

/-- A health-checker run whose liveness check fails with a connection
error. -/
def c1env : HealthEnv := ⟨.connError, .connError, .connError, .connError⟩

/-- A health-checker run in which every request succeeds. -/
def c1envH : HealthEnv :=
  ⟨.ok 200 none,
   .ok 200 (some (.jobj [("models", .jarr [.jobj [("name", .jstr "qwen3:4b")]])])),
   .ok 200 (some (.jobj [("details", .jobj [])])),
   .ok 200 (some (.jobj [("response", .jstr "Hello, configuration test successful!")]))⟩

/-- An embedder-tester run in which the configuration loads and every check
passes. -/
def c1envE : EmbedEnv :=
  ⟨.parsed [("local_embedder",
     { kind := some "embedder", model := some "nomic-embed-text",
       provider := some "ollama", base_url := "http://localhost:11434",
       api_key := some "none" })],
   .ok 200 none,
   .ok 200 (some (.jobj [("data",
     .jarr [.jobj [("embedding", .jarr [.jnum 0.25, .jnum 0.5])]])])),
   .ok 200 (some (.jobj [("modelinfo",
     .jobj [("nomic-bert.context_length", .jnum 2048)])]))⟩

/-- A tag-listing request answered with HTTP 500. -/
def c2resp : NetResult := .ok 500 (some (.jobj [("models", .jarr [])]))

/-- An embeddings response whose `data` holds two items, the second of which
has no `embedding` field. -/
def c3CounterBody : JsonVal :=
  .jobj [("data", .jarr [.jobj [("embedding", .jarr [.jnum 1])], .jobj []])]

/-- The parsed payload of an embeddings response with
`data: [{embedding: [0.1, 0.2, 0.3]}]`. -/
def c3okKvs : List (String × JsonVal) :=
  [("data", .jarr [.jobj [("embedding", .jarr [.jnum 0.1, .jnum 0.2, .jnum 0.3])]])]

/-- The parsed payload of an embeddings response with `data: []`. -/
def c3emptyKvs : List (String × JsonVal) := [("data", .jarr [])]

/-- An embedder-tester run whose configuration file has entries but none of
kind `"embedder"`. -/
def c4env : EmbedEnv :=
  ⟨.parsed [("chat_model", { kind := some "chat", model := some "qwen3:4b" })],
   .ok 200 none, .ok 200 none, .ok 200 none⟩

/-- A health-checker run whose liveness request times out. -/
def c6env : HealthEnv := ⟨.timeout, .ok 200 none, .ok 200 none, .ok 200 none⟩

/-- The descriptor list of a tag-listing response that does not contain the
configured model. -/
def c7ms : List JsonVal := [.jobj [("name", .jstr "llama3:8b")]]

/-- The parsed payload of that tag-listing response. -/
def c7kvs : List (String × JsonVal) := [("models", .jarr c7ms)]

/-- The `modelinfo` mapping `{"llama.context_length": 8192}`. -/
def c8mkvs : List (String × JsonVal) := [("llama.context_length", .jnum 8192)]

/-- The parsed payload of a model-show response with that `modelinfo`. -/
def c8pkvs : List (String × JsonVal) := [("modelinfo", .jobj c8mkvs)]

/-- The parsed payload of a model-show response with `modelinfo: {}`. -/
def c8emptyPkvs : List (String × JsonVal) := [("modelinfo", .jobj [])]

/-- The `modelinfo` mapping with a STRING-valued context length,
`{"llama.context_length": "8192"}`. -/
def c8strMkvs : List (String × JsonVal) := [("llama.context_length", .jstr "8192")]

/-- The parsed payload of a model-show response with that `modelinfo`. -/
def c8strPkvs : List (String × JsonVal) := [("modelinfo", .jobj c8strMkvs)]

/-- An embedder-tester run whose first two checks pass and whose model-show
response carries the string-valued context length. -/
def c8crashEnv : EmbedEnv :=
  ⟨.parsed [("local_embedder", { kind := some "embedder" })],
   .ok 200 none,
   .ok 200 (some (.jobj [("data", .jarr [.jobj [("embedding", .jarr [.jnum 1])]])])),
   .ok 200 (some (.jobj c8strPkvs))⟩

/- ────────────────────────────────────────────────────────────────────────
   Helper lemmas
   ──────────────────────────────────────────────────────────────────────── -/

/-- On a well-formed descriptor the Python name extraction returns the
string `itemName` computes. -/
theorem getNameE_of_wf (m : JsonVal) (h : wfTagItem m = true) :
    getNameE m = .ok (.jstr (itemName m)) := by
  cases m with
  | jobj kvs =>
    rcases hn : jget kvs "name" with _ | v
    · simp [getNameE, itemName, hn]
    · cases v <;> simp_all [getNameE, itemName, wfTagItem, hn]
  | jnull => simp [wfTagItem] at h
  | jbool b => simp [wfTagItem] at h
  | jnum q => simp [wfTagItem] at h
  | jstr s => simp [wfTagItem] at h
  | jarr items => simp [wfTagItem] at h

/-- On a well-formed descriptor list the Python comprehension returns the
`itemName`s. -/
theorem getNamesE_of_wf (ms : List JsonVal) (h : ms.all wfTagItem = true) :
    getNamesE ms = .ok ((ms.map itemName).map JsonVal.jstr) := by
  induction ms with
  | nil => rfl
  | cons m rest ih =>
    rw [List.all_cons, Bool.and_eq_true] at h
    simp [getNamesE, getNameE_of_wf m h.1, ih h.2]

/-- On a list of strings the short-circuiting membership scan computes the
boolean `any`. -/
theorem anyContainsE_map (needle : String) (ss : List String) :
    anyContainsE needle (ss.map JsonVal.jstr) =
      .ok (ss.any (fun s => pyInStr needle s)) := by
  induction ss with
  | nil => rfl
  | cons s rest ih =>
    by_cases hs : pyInStr needle s = true
    · simp [anyContainsE, pyInE, hs]
    · simp [anyContainsE, pyInE, hs, ih]

/-- On a list of strings the join precondition holds and returns the
strings themselves. -/
theorem asStringsE_map (ss : List String) :
    asStringsE (ss.map JsonVal.jstr) = .ok ss := by
  induction ss with
  | nil => rfl
  | cons s rest ih => simp [asStringsE, ih]

/- ────────────────────────────────────────────────────────────────────────
   Claim theorems
   ──────────────────────────────────────────────────────────────────────── -/

/-- Claim C9: `test_connection` returns success for every HTTP response
regardless of its status code, and failure exactly when the request raised
a connection error, a timeout, or any other exception instead of producing
a response. -/
theorem c9_connection (r : NetResult) :
    (test_connection r = true ↔ ∃ status body, r = .ok status body) ∧
    test_connection .connError = false ∧
    test_connection .timeout = false ∧
    test_connection .otherExc = false := by
  refine ⟨?_, rfl, rfl, rfl⟩
  cases r <;> simp [test_connection]

/-- Claim C10: the embedding request's headers carry an `Authorization`
header exactly when the configured `api_key` is a real credential:
non-empty and, lowercased, not on the placeholder allow-list
`["", "none", "ollama", "no_key_required"]`; otherwise no `Authorization`
header is attached. -/
theorem c10_auth_header (cfg : ModelCfg) :
    (headersOf cfg).lookup "Authorization" =
      (if (cfg.api_key.getD "") != "" &&
          !(placeholder_keys.contains (cfg.api_key.getD "").toLower) then
        some ("Bearer " ++ cfg.api_key.getD "")
      else none) := by
  unfold headersOf
  split
  · rename_i h
    rw [if_pos h]
    rfl
  · rename_i h
    rw [if_neg h]
    rfl

/-- Claim C2 (code bug): when the tag-listing endpoint answers with a
non-200 status, `check_model_available` neither logs the failure nor
returns a boolean: its `try` body has no `else` branch for that case (its
sibling `check_ollama_status` does), so control falls off the end and the
function returns Python `None`, printing nothing. -/
theorem c2_availability_non200 :
    check_model_available c2resp = (none, []) ∧
    ((check_model_available c2resp).1).isSome = false ∧
    ((check_model_available c2resp).2).length = 0 :=
  ⟨rfl, rfl, rfl⟩

/-- Claim C5: the health checker's verdict (whether the final success line
prints) is the logical AND of the liveness, availability and inference
results — the availability value read with Python truthiness, since
`check_model_available` can return `None` — and the metadata fetch never
affects it: changing the `/api/show` response changes neither verdict nor
exit status nor the set of requests issued, only possibly the warning. -/
theorem c5_verdict_and (env : HealthEnv) (s : NetResult) :
    (health_main env).verdict =
      ((check_ollama_status env.tags1).getD false &&
       ((check_model_available env.tags2).1.getD false) &&
       test_model_inference env.genResp) ∧
    (health_main { env with showResp := s }).verdict = (health_main env).verdict ∧
    (health_main { env with showResp := s }).exitCode = (health_main env).exitCode ∧
    (health_main { env with showResp := s }).calls = (health_main env).calls := by
  obtain ⟨t1, t2, sh, g⟩ := env
  cases h1 : check_ollama_status t1 with
  | none => simp [health_main, h1]
  | some b1 =>
    cases b1 with
    | false => simp [health_main, h1]
    | true =>
      cases h2 : (check_model_available t2).1 with
      | none => simp [health_main, h1, h2]
      | some b2 =>
        cases b2 with
        | false => simp [health_main, h1, h2]
        | true => simp [health_main, h1, h2]

/-- Claim C6: the liveness check succeeds exactly on HTTP 200, regardless of
the response body; a connection error, a timeout, or a non-200 status is a
failure, and a failed liveness check short-circuits the health checker: no
further request is issued, the verdict is failure (and the process still
exits 0). -/
theorem c6_liveness (status : Nat) (body : Option JsonVal) (env : HealthEnv) :
    (check_ollama_status (.ok status body) = some true ↔ status = 200) ∧
    check_ollama_status .connError = some false ∧
    check_ollama_status .timeout = some false ∧
    (check_ollama_status env.tags1 = some false →
      (health_main env).calls = 1 ∧ (health_main env).verdict = false ∧
      (health_main env).exitCode = 0) := by
  refine ⟨?_, rfl, rfl, ?_⟩
  · simp [check_ollama_status]
  · intro h
    simp [health_main, h]

/-- Witness for C6 at a concrete run: a timed-out liveness request makes the
health checker stop after its single request with a failure verdict. -/
theorem c6_liveness_witness :
    check_ollama_status c6env.tags1 = some false ∧
    (health_main c6env).calls = 1 ∧ (health_main c6env).verdict = false ∧
    (health_main c6env).exitCode = 0 :=
  ⟨rfl, (c6_liveness 404 none c6env).2.2.2 rfl⟩

/-- Claim C4: if the configuration file is missing, unparsable, or has no
entry whose `kind` equals `"embedder"`, the embedder tester exits with
status 1 and a diagnostic message before issuing any network call. -/
theorem c4_fatal_config (env : EmbedEnv) (h : noEmbedderEntry env.config = true) :
    (embedder_main env).exitCode = 1 ∧ (embedder_main env).calls = 0 ∧
    ∃ msg, load_embedder_cfg env.config = .error msg := by
  obtain ⟨config, connResp, embedResp, showResp⟩ := env
  cases config with
  | missing => exact ⟨rfl, rfl, _, rfl⟩
  | unparsable => exact ⟨rfl, rfl, _, rfl⟩
  | parsed entries =>
    simp only [noEmbedderEntry, List.all_eq_true] at h
    have hfind : entries.find? (fun p => p.2.kind == some "embedder") = none := by
      rw [List.find?_eq_none]
      intro p hp
      simpa using h p hp
    simp [embedder_main, load_embedder_cfg, hfind]

/-- Witness for C4 at a concrete run: a configuration with only a
`kind = "chat"` entry makes the embedder tester exit 1 with zero network
calls. -/
theorem c4_fatal_config_witness :
    noEmbedderEntry c4env.config = true ∧
    (embedder_main c4env).exitCode = 1 ∧ (embedder_main c4env).calls = 0 ∧
    load_embedder_cfg c4env.config =
      .error "[ERROR] No model with kind='embedder' found in llm_models_json.json." :=
  ⟨by decide, (c4_fatal_config c4env (by decide)).1,
   (c4_fatal_config c4env (by decide)).2.1, rfl⟩

/-- Claim C1 counterexample: a run of the health checker whose liveness
check fails (connection error) still makes the process exit with status 0 —
`main` of `check_ollama_config.py` never calls `sys.exit` — refuting the
claim that the health checker exits with status 1 whenever a check fails. -/
theorem c1_counterexample :
    check_ollama_status c1env.tags1 = some false ∧
    (health_main c1env).verdict = false ∧
    (health_main c1env).exitCode = 0 :=
  ⟨rfl, rfl, rfl⟩

/-- Claim C1 (amended): the embedder tester exits with status 0 exactly when
the configuration loads and all three of its checks pass, and with status 1
when any check fails or the configuration is missing/malformed; the health
checker, by contrast, always exits with status 0 (absent an uncaught
exception from the liveness request), reporting failures only in its
console output. -/
theorem c1_exit_codes (envH : HealthEnv) (envE : EmbedEnv)
    (h : check_ollama_status envH.tags1 ≠ none) :
    (health_main envH).exitCode = 0 ∧
    ((embedder_main envE).exitCode = 0 ↔
      (∃ p, load_embedder_cfg envE.config = .ok p) ∧
      test_connection envE.connResp = true ∧
      (test_embedding envE.embedResp).1 = some true ∧
      (test_context_window envE.showResp).1 = some true) := by
  constructor
  · cases h1 : check_ollama_status envH.tags1 with
    | none => exact absurd h1 h
    | some b1 =>
      cases b1 with
      | false => simp [health_main, h1]
      | true =>
        cases h2 : (check_model_available envH.tags2).1 with
        | none => simp [health_main, h1, h2]
        | some b2 => cases b2 <;> simp [health_main, h1, h2]
  · cases hl : load_embedder_cfg envE.config with
    | error msg => simp [embedder_main, hl]
    | ok p =>
      cases h2 : (test_embedding envE.embedResp).1 with
      | none => simp [embedder_main, hl, h2]
      | some r2 =>
        cases h3 : (test_context_window envE.showResp).1 with
        | none => simp [embedder_main, hl, h2, h3]
        | some r3 =>
          cases hr1 : test_connection envE.connResp <;> cases r2 <;> cases r3 <;>
            simp [embedder_main, hl, h2, h3, hr1]

/-- Witness for C1 at concrete runs: a fully successful health-checker run
exits 0, and a fully successful embedder-tester run exits 0. -/
theorem c1_exit_codes_witness :
    check_ollama_status c1envH.tags1 = some true ∧
    (health_main c1envH).exitCode = 0 ∧
    (embedder_main c1envE).exitCode = 0 :=
  ⟨rfl,
   (c1_exit_codes c1envH c1envE (by decide)).1,
   ((c1_exit_codes c1envH c1envE (by decide)).2).mpr
     ⟨⟨_, rfl⟩, rfl, rfl, rfl⟩⟩

/-- Characterization of the embedding shape validation: it accepts exactly
when `data` is a non-empty list whose FIRST item is an object holding a
non-empty `embedding` list whose first five values are numeric. -/
theorem validate_embedding_spec (kvs : List (String × JsonVal)) :
    (validate_embedding kvs).1 = some true ↔
      ∃ ikvs rest e es,
        jget kvs "data" = some (.jarr (.jobj ikvs :: rest)) ∧
        jget ikvs "embedding" = some (.jarr (e :: es)) ∧
        ((e :: es).take 5).all isNumLike = true := by
  unfold validate_embedding
  rcases hd : jget kvs "data" with _ | v
  · simp [hd]
  · cases v with
    | jarr items =>
      cases items with
      | nil => simp [hd]
      | cons item0 rest =>
        cases item0 with
        | jobj ikvs =>
          rcases he : jget ikvs "embedding" with _ | w
          · simp [hd, he]
          · cases w with
            | jarr es0 =>
              cases es0 with
              | nil => simp [hd, he]
              | cons e es =>
                simp only [hd, he]
                by_cases hn : (((e :: es).take 5).all isNumLike) = true
                · rw [if_pos hn]
                  exact iff_of_true rfl ⟨ikvs, rest, e, es, rfl, he, hn⟩
                · rw [if_neg hn]
                  refine iff_of_false (by simp) ?_
                  rintro ⟨ikvs', rest', e', es', hd', he', hn'⟩
                  injection hd' with h1
                  injection h1 with h2
                  injection h2 with h3 h4
                  injection h3 with h5
                  subst h5
                  rw [he] at he'
                  injection he' with h6
                  injection h6 with h7
                  injection h7 with h8 h9
                  subst h8
                  subst h9
                  exact hn hn'
            | jnull => simp [hd, he]
            | jbool b => simp [hd, he]
            | jnum q => simp [hd, he]
            | jstr s => simp [hd, he]
            | jobj o => simp [hd, he]
        | jnull => simp [hd]
        | jbool b => simp [hd]
        | jnum q => simp [hd]
        | jstr s => simp [hd]
        | jarr a => simp [hd]
    | jnull => simp [hd]
    | jbool b => simp [hd]
    | jnum q => simp [hd]
    | jstr s => simp [hd]
    | jobj o => simp [hd]

/-- Claim C3 counterexample: for a 200 response whose `data` holds a valid
first item and a second item without an `embedding` field, `test_embedding`
passes although the claim's condition — every item holds a non-empty
numeric vector — is false, refuting "passes exactly when". -/
theorem c3_counterexample :
    (test_embedding (.ok 200 (some c3CounterBody))).1 = some true ∧
    claimedEmbedOk c3CounterBody = false :=
  ⟨rfl, rfl⟩

/-- Claim C3 (amended): on a 2xx response with a JSON-object body, the
embedding check passes exactly when `data` is a non-empty list whose FIRST
item is an object holding a non-empty `embedding` list whose first five
values are numeric (later items and later values are not inspected); on
success it reports the vector's length and its first five values, and a
response with `data: []` fails by returning, not by raising. -/
theorem c3_embedding_check (status : Nat) (kvs : List (String × JsonVal))
    (h200 : 200 ≤ status) (h300 : status < 300) :
    ((test_embedding (.ok status (some (.jobj kvs)))).1 = some true ↔
      ∃ ikvs rest e es,
        jget kvs "data" = some (.jarr (.jobj ikvs :: rest)) ∧
        jget ikvs "embedding" = some (.jarr (e :: es)) ∧
        ((e :: es).take 5).all isNumLike = true) ∧
    (∀ ikvs rest e es,
      jget kvs "data" = some (.jarr (.jobj ikvs :: rest)) →
      jget ikvs "embedding" = some (.jarr (e :: es)) →
      ((e :: es).take 5).all isNumLike = true →
      test_embedding (.ok status (some (.jobj kvs))) =
        (some true, .success (e :: es).length ((e :: es).take 5))) ∧
    (jget kvs "data" = some (.jarr []) →
      test_embedding (.ok status (some (.jobj kvs))) = (some false, .badShape)) := by
  have ht : test_embedding (.ok status (some (.jobj kvs))) = validate_embedding kvs := by
    simp [test_embedding, h200, h300]
  rw [ht]
  refine ⟨validate_embedding_spec kvs, ?_, ?_⟩
  · intro ikvs rest e es hd he hn
    simp only [validate_embedding, hd, he]
    rw [if_pos hn]
  · intro hd
    simp [validate_embedding, hd]

/-- Witness for C3 at the claim's concrete inputs: the response with
`data: [{embedding: [0.1, 0.2, 0.3]}]` passes reporting dimension 3 and the
three values, and the response with `data: []` returns failure. -/
theorem c3_embedding_check_witness :
    test_embedding (.ok 200 (some (.jobj c3okKvs))) =
      (some true, .success 3 [.jnum 0.1, .jnum 0.2, .jnum 0.3]) ∧
    test_embedding (.ok 200 (some (.jobj c3emptyKvs))) = (some false, .badShape) :=
  ⟨((c3_embedding_check 200 c3okKvs (by decide) (by decide)).2.1
      [("embedding", .jarr [.jnum 0.1, .jnum 0.2, .jnum 0.3])] []
      (.jnum 0.1) [.jnum 0.2, .jnum 0.3] rfl rfl (by decide)).trans rfl,
   (c3_embedding_check 200 c3emptyKvs (by decide) (by decide)).2.2 rfl⟩

/-- Claim C7: given an HTTP-200 tag-listing response whose `models` are
well-formed descriptors, the availability check succeeds exactly when some
descriptor's name contains the configured model identifier as a substring;
on absence it returns failure and its printed message lists the available
model names together with the `ollama pull` remediation hint. -/
theorem c7_availability (kvs : List (String × JsonVal)) (ms : List JsonVal)
    (hm : (jget kvs "models").getD (.jarr []) = .jarr ms)
    (hwf : ms.all wfTagItem = true) :
    ((check_model_available (.ok 200 (some (.jobj kvs)))).1 = some true ↔
      (ms.map itemName).any (fun n => pyInStr MODEL_NAME n) = true) ∧
    ((ms.map itemName).any (fun n => pyInStr MODEL_NAME n) = false →
      (check_model_available (.ok 200 (some (.jobj kvs)))).2 =
        ["❌ Model 'qwen3:4b' is NOT available.",
         "   Available models: " ++
           (if (ms.map itemName).isEmpty then "None"
            else String.intercalate ", " (ms.map itemName)),
         "   Run: ollama pull qwen3:4b"]) := by
  have hc : check_model_available (.ok 200 (some (.jobj kvs))) =
      evalModels (.jarr ms) := by
    simp [check_model_available, hm]
  have hns := getNamesE_of_wf ms hwf
  rw [hc]
  cases ha : (ms.map itemName).any (fun n => pyInStr MODEL_NAME n) with
  | true =>
    have hev : evalModels (.jarr ms) =
        (some true, ["✅ Model '" ++ MODEL_NAME ++ "' is available."]) := by
      simp only [evalModels, hns, anyContainsE_map, ha]
    rw [hev]
    exact ⟨by simp, by simp⟩
  | false =>
    have hev : evalModels (.jarr ms) =
        (some false, notAvailLines (ms.map itemName)) := by
      simp only [evalModels, hns, anyContainsE_map, ha, asStringsE_map]
    rw [hev]
    exact ⟨by simp, fun _ => rfl⟩

/-- Witness for C7 at the concrete tag listing `{models: [{name:
"llama3:8b"}]}`: the check fails and its message lists the available name
and the remediation hint. -/
theorem c7_availability_witness :
    (jget c7kvs "models").getD (.jarr []) = .jarr c7ms ∧
    c7ms.all wfTagItem = true ∧
    (check_model_available (.ok 200 (some (.jobj c7kvs)))).1 = some false ∧
    (check_model_available (.ok 200 (some (.jobj c7kvs)))).2 =
      ["❌ Model 'qwen3:4b' is NOT available.",
       "   Available models: llama3:8b",
       "   Run: ollama pull qwen3:4b"] :=
  ⟨rfl, by decide, rfl,
   ((c7_availability c7kvs c7ms rfl (by decide)).2 (by decide)).trans (by decide)⟩

/-- Claim C8 counterexample: for a 200 model-show response with
`modelinfo: {"llama.context_length": "8192"}` the mapping does contain a
key ending in `.context_length`, yet the check does not pass: the uncaught
thousands-separator formatting of the string value raises `ValueError`, the
check crashes and the whole run exits with status 1, refuting "passes
exactly when ... contains some key ending in the suffix". -/
theorem c8_counterexample :
    c8strMkvs.any (fun p => pyEndsWith p.1 ".context_length") = true ∧
    test_context_window (.ok 200 (some (.jobj c8strPkvs))) = (none, .crashed) ∧
    (embedder_main c8crashEnv).exitCode = 1 :=
  ⟨rfl, rfl, rfl⟩

/-- Claim C8 (amended): for a 200 model-show response whose `modelinfo`
value is a JSON object, the context-window check passes exactly when the
first key ending in `.context_length` exists and holds a numeric value, in
which case that key and its value are reported; a non-numeric value at that
key makes the uncaught report formatting raise, crashing the process;
absence of any such key (in particular `modelinfo: {}`) fails by
returning. -/
theorem c8_context_window (pkvs mkvs : List (String × JsonVal))
    (hm : (jget pkvs "modelinfo").getD (.jobj []) = .jobj mkvs) :
    (((test_context_window (.ok 200 (some (.jobj pkvs)))).1 = some true) ↔
      ∃ k v, findCtxKey mkvs = some (k, v) ∧ isNumLike v = true) ∧
    (∀ k v, findCtxKey mkvs = some (k, v) → isNumLike v = true →
      test_context_window (.ok 200 (some (.jobj pkvs))) =
        (some true, .ctxFound k v)) ∧
    (∀ k v, findCtxKey mkvs = some (k, v) → isNumLike v = false →
      test_context_window (.ok 200 (some (.jobj pkvs))) = (none, .crashed)) ∧
    (findCtxKey mkvs = none →
      (test_context_window (.ok 200 (some (.jobj pkvs)))).1 = some false) := by
  have ht : test_context_window (.ok 200 (some (.jobj pkvs))) =
      search_modelinfo pkvs := by
    simp [test_context_window]
  rw [ht]
  cases mkvs with
  | nil =>
    have hs : search_modelinfo pkvs = (some false, .noModelinfo) := by
      simp [search_modelinfo, hm, pyTruthy]
    rw [hs]
    refine ⟨?_, ?_, ?_, fun _ => rfl⟩
    · refine iff_of_false (by simp) ?_
      rintro ⟨k, v, hkv, _⟩
      simp [findCtxKey] at hkv
    · intro k v hkv
      simp [findCtxKey] at hkv
    · intro k v hkv
      simp [findCtxKey] at hkv
  | cons p rest =>
    cases hf : findCtxKey (p :: rest) with
    | some q =>
      cases hnum : isNumLike q.2 with
      | true =>
        have hs : search_modelinfo pkvs = (some true, .ctxFound q.1 q.2) := by
          simp [search_modelinfo, hm, pyTruthy, hf, hnum]
        rw [hs]
        refine ⟨?_, ?_, ?_, ?_⟩
        · exact iff_of_true rfl ⟨q.1, q.2, rfl, hnum⟩
        · intro k v hkv hnv
          injection hkv with h1
          subst h1
          rfl
        · intro k v hkv hnv
          injection hkv with h1
          subst h1
          simp only [] at hnum
          rw [hnv] at hnum
          exact absurd hnum (by simp)
        · intro hnone
          exact absurd hnone (by simp)
      | false =>
        have hs : search_modelinfo pkvs = (none, .crashed) := by
          simp [search_modelinfo, hm, pyTruthy, hf, hnum]
        rw [hs]
        refine ⟨?_, ?_, ?_, ?_⟩
        · refine iff_of_false (by simp) ?_
          rintro ⟨k, v, hkv, hnv⟩
          injection hkv with h1
          subst h1
          rw [hnv] at hnum
          exact absurd hnum (by simp)
        · intro k v hkv hnv
          injection hkv with h1
          subst h1
          rw [hnv] at hnum
          exact absurd hnum (by simp)
        · intro k v hkv hnv
          injection hkv with h1
          subst h1
          rfl
        · intro hnone
          exact absurd hnone (by simp)
    | none =>
      have hs : search_modelinfo pkvs =
          (some false, .noCtxKey ((p :: rest).map (fun r => r.1))) := by
        simp [search_modelinfo, hm, pyTruthy, hf]
      rw [hs]
      refine ⟨?_, ?_, ?_, fun _ => rfl⟩
      · refine iff_of_false (by simp) ?_
        rintro ⟨k, v, hkv, _⟩
        exact absurd hkv (by simp)
      · intro k v hkv
        exact absurd hkv (by simp)
      · intro k v hkv
        exact absurd hkv (by simp)

/-- Witness for C8 at the claim's concrete inputs: `modelinfo:
{"llama.context_length": 8192}` passes reporting that key and 8192, and
`modelinfo: {}` fails. -/
theorem c8_context_window_witness :
    test_context_window (.ok 200 (some (.jobj c8pkvs))) =
      (some true, .ctxFound "llama.context_length" (.jnum 8192)) ∧
    (test_context_window (.ok 200 (some (.jobj c8emptyPkvs)))).1 = some false :=
  ⟨(c8_context_window c8pkvs c8mkvs rfl).2.1 "llama.context_length" (.jnum 8192)
      rfl rfl,
   (c8_context_window c8emptyPkvs [] rfl).2.2.2 rfl⟩
